import Mathlib

/-!
Shallow Lean embedding of the zeabur/astro adapter packages, checked against the
repository's natural-language specification.  The definitions model:

* `src/packages/integrations/zeabur/src/serverless/adapter.ts` (build hooks,
  function naming, runtime validation, function-folder packaging);
* `src/packages/integrations/zeabur/src/serverless/entrypoint.ts` (request handler);
* `src/packages/integrations/zeabur/src/static/adapter.ts` (static adapter hooks);
* `src/packages/astro/e2e/fixtures/actions-blog/src/actions/index.ts` (comment action);
* the Vue integration's virtual-module plugin (`virtualAppEntrypoint`).

JavaScript string primitives (`startsWith`, `slice`, first-occurrence `replace`,
`split('.')[0]`, `path.basename`, `JSON.stringify` on strings) are modelled as
character-list functions so that every definition evaluates by kernel reduction.
-/

/-- Models JS `pat` being a prefix of `s` (character-wise `String.prototype.startsWith`). -/
def charsBeginWith : List Char → List Char → Bool
  | [], _ => true
  | _ :: _, [] => false
  | p :: ps, c :: cs => p == c && charsBeginWith ps cs

/-- Models JS `String.prototype.startsWith`. -/
def jsStartsWith (s pat : String) : Bool :=
  charsBeginWith pat.data s.data

/-- Models JS `String.prototype.slice(n)` / dropping the first `n` characters. -/
def jsDrop (s : String) (n : Nat) : String :=
  ⟨s.data.drop n⟩

/-- Models dropping the last `n` characters of a string. -/
def jsDropEnd (s : String) (n : Nat) : String :=
  ⟨s.data.take (s.data.length - n)⟩

/-- Models JS `pat` being a suffix of `s`. -/
def jsEndsWith (s pat : String) : Bool :=
  charsBeginWith pat.data.reverse s.data.reverse

/-- Replaces the first occurrence of `pat` by `rep`, as JS
`String.prototype.replace(pat, rep)` does for a string pattern. -/
def replaceFirstChars (pat rep : List Char) : List Char → List Char
  | [] => if charsBeginWith pat [] then rep else []
  | c :: cs =>
    if charsBeginWith pat (c :: cs) then rep ++ (c :: cs).drop pat.length
    else c :: replaceFirstChars pat rep cs

/-- Models JS `s.replace(pat, rep)` with a string pattern: only the first
occurrence of `pat` is replaced. -/
def jsReplaceFirst (s pat rep : String) : String :=
  ⟨replaceFirstChars pat.data rep.data s.data⟩

/-- Models Node `path.basename` on POSIX paths: trailing slashes are stripped and
the component after the last `/` is returned. -/
def jsBasename (s : String) : String :=
  ⟨((s.data.reverse.dropWhile (fun c => c == '/')).takeWhile (fun c => !(c == '/'))).reverse⟩

/-- Models JS `version.split('.')[0]`: the characters before the first dot. -/
def headSplitDot (s : String) : String :=
  ⟨s.data.takeWhile (fun c => !(c == '.'))⟩

/-- Does `s` contain `sub` as a contiguous substring? -/
def charsHaveSub (sub : List Char) : List Char → Bool
  | [] => charsBeginWith sub []
  | c :: cs => charsBeginWith sub (c :: cs) || charsHaveSub sub cs

/-- Models JS `String.prototype.includes`. -/
def jsIncludes (s sub : String) : Bool :=
  charsHaveSub sub.data s.data

/-- Models WHATWG `new URL(rel, base)` for a directory base URL (ending in `/`)
and a plain relative path: a leading `./` on `rel` is dropped and the remainder
is appended to `base`. -/
def urlJoin (base rel : String) : String :=
  base ++ (if jsStartsWith rel "./" then jsDrop rel 2 else rel)

/-- JSON values, as produced by the adapters' manifest writers. -/
inductive Json where
  | null
  | bool (b : Bool)
  | num (n : Int)
  | str (s : String)
  | arr (elems : List Json)
  | obj (fields : List (String × Json))

/-- Looks a key up in a JSON object field list (first match). -/
def jlookup : List (String × Json) → String → Option Json
  | [], _ => none
  | (k, v) :: rest, key => if k = key then some v else jlookup rest key

/-- Extracts the `(src, dest)` pairs of the `routes` array of a manifest value. -/
def manifestEntries (j : Json) : List (String × String) :=
  match j with
  | Json.obj fields =>
    match jlookup fields "routes" with
    | some (Json.arr rs) =>
      rs.filterMap fun r =>
        match r with
        | Json.obj f2 =>
          match jlookup f2 "src", jlookup f2 "dest" with
          | some (Json.str s), some (Json.str d) => some (s, d)
          | _, _ => none
        | _ => none
    | _ => []
  | _ => []

/-! ## Serverless adapter (`src/packages/integrations/zeabur/src/serverless/adapter.ts`) -/

/-- A route as the `astro:build:done` hook uses it: its component path and the
source of its pattern regex (`route.component`, `route.pattern.source`). -/
structure Route where
  component : String
  patternSource : String
deriving DecidableEq

/-- Support metadata of `SUPPORTED_NODE_VERSIONS` (adapter.ts lines 21-28). -/
structure NodeSupport where
  status : String
  removal : Option String
deriving DecidableEq

/-- The `SUPPORTED_NODE_VERSIONS` record (adapter.ts lines 21-28). -/
def SUPPORTED_NODE_VERSIONS : String → Option NodeSupport
  | "16" => some ⟨"deprecated", some "February 6 2024"⟩
  | "18" => some ⟨"current", none⟩
  | "20" => some ⟨"beta", none⟩
  | _ => none

/-- The major component of `process.version` as `validateRuntime` computes it:
`version.slice(1).split('.')[0]` (adapter.ts lines 284-285). -/
def nodeMajorOf (processVersion : String) : String :=
  headSplitDot (jsDrop processVersion 1)

/-- Which warning path `validateRuntime` took when it returns normally. -/
inductive RuntimeBranch where
  | betaWarned
  | notSupportedWarned
  | deprecatedWarned
  | silent
deriving DecidableEq

/-- The JS error raised by reading `support.status` when `support` is `undefined`. -/
def undefinedStatusMessage : String :=
  "TypeError: Cannot read properties of undefined (reading \x27status\x27)"

/-- Models `validateRuntime` (adapter.ts lines 283-314).  The source reads
`support.status` before its `support === undefined` check, so an unsupported
major version throws a `TypeError` instead of reaching the "not supported"
warning branch; that dead check is kept here as the (provably false) test
`SUPPORTED_NODE_VERSIONS major = none` inside the `some` branch. -/
def validateRuntime (processVersion : String) : Except String RuntimeBranch :=
  let major := nodeMajorOf processVersion
  match SUPPORTED_NODE_VERSIONS major with
  | none => Except.error undefinedStatusMessage
  | some support =>
    if support.status = "beta" then Except.ok RuntimeBranch.betaWarned
    else if SUPPORTED_NODE_VERSIONS major = none then Except.ok RuntimeBranch.notSupportedWarned
    else if support.status = "deprecated" then Except.ok RuntimeBranch.deprecatedWarned
    else Except.ok RuntimeBranch.silent

/-- Models `getRouteFuncName` (adapter.ts line 192):
`route.component.replace('src/pages/', '')`. -/
def getRouteFuncName (route : Route) : String :=
  jsReplaceFirst route.component "src/pages/" ""

/-- Models `getFallbackFuncName` (adapter.ts lines 194-197):
`basename(entryFile).replace('entry.', '').replace(/\.mjs$/, '')`. -/
def getFallbackFuncName (entryFile : String) : String :=
  let b := jsReplaceFirst (jsBasename entryFile) "entry." ""
  if jsEndsWith b ".mjs" then jsDropEnd b 4 else b

/-- The function name chosen for a route/entry-file pair (adapter.ts lines 200-202). -/
def funcNameFor (route : Route) (entryFile : String) : String :=
  if jsStartsWith route.component "src/pages/" then getRouteFuncName route
  else getFallbackFuncName entryFile

/-- Inputs of the `astro:build:done` hook that the model depends on: the resolved
route-to-entry-file map captured at `astro:build:ssr`, and the config values the
hook reads (`serverEntry`, `buildTempFolder`, `outDir`). -/
structure BuildDoneInput where
  entryPoints : List (Route × String)
  serverEntry : String
  buildTempFolder : String
  outDir : String

/-- Filesystem effects the build hooks perform, in order.  Function-folder
creation is recorded here by its name and entry file; its internal writes are
modelled separately by `createFunctionFolder`. -/
inductive Effect where
  | createFunctionFolder (functionName : String) (entry : String)
  | writeJson (path : String) (value : Json)
  | removeDir (path : String)
  | emptyDir (dir : String)

/-- The constant manifest value written by both adapters:
`{"routes":[{"src":".*","dest":"/__astro"}],"containerized":false}`
(serverless adapter.ts line 233; static adapter.ts lines 57-60). -/
def zeaburManifest : Json :=
  Json.obj
    [("routes", Json.arr [Json.obj [("src", Json.str ".*"), ("dest", Json.str "/__astro")]]),
     ("containerized", Json.bool false)]

/-- The function-folder creations of the `astro:build:done` hook (adapter.ts
lines 191-231): one per entry of the route map, or the `__astro` fallback when
the map is empty. -/
def funcEffects (i : BuildDoneInput) : List Effect :=
  match i.entryPoints with
  | [] => [Effect.createFunctionFolder "__astro" (urlJoin i.buildTempFolder i.serverEntry)]
  | eps => eps.map fun p => Effect.createFunctionFolder (funcNameFor p.1 p.2) p.2

/-- The `routeDefinitions` list the hook accumulates (adapter.ts lines 184,
214-217, 230).  Note the hook never writes this list anywhere. -/
def routeDefinitions (i : BuildDoneInput) : List (String × String) :=
  match i.entryPoints with
  | [] => [("/.*", "__astro")]
  | eps => eps.map fun p => (p.1.patternSource, funcNameFor p.1 p.2)

/-- The trailing effects of the hook: the `config.json` write of the constant
manifest, then removal of the temporary build folder (adapter.ts lines 233-236). -/
def tailEffects (i : BuildDoneInput) : List Effect :=
  [Effect.writeJson (urlJoin i.outDir "./config.json") zeaburManifest,
   Effect.removeDir i.buildTempFolder]

/-- Models the `astro:build:done` hook (adapter.ts lines 167-237): it runs
`validateRuntime` (propagating its throw), then creates the function folders,
writes `config.json`, and removes the temporary folder, also returning the
`routeDefinitions` list it computed. -/
def buildDone (processVersion : String) (i : BuildDoneInput) :
    Except String (List Effect × List (String × String)) :=
  match validateRuntime processVersion with
  | Except.error e => Except.error e
  | Except.ok _ => Except.ok (funcEffects i ++ tailEffects i, routeDefinitions i)

/-- The `(path, value)` pairs of the JSON writes among a list of effects. -/
def writeJsonEffects : List Effect → List (String × Json)
  | [] => []
  | Effect.writeJson p v :: rest => (p, v) :: writeJsonEffects rest
  | _ :: rest => writeJsonEffects rest

/-! ### Function-folder packaging (`createFunctionFolder`, adapter.ts lines 242-281) -/

/-- The argument object of `copyDependenciesToFunction` as `createFunctionFolder`
builds it (adapter.ts lines 265-274). -/
structure CopyDepsCall where
  entry : String
  outDir : String
  includeFiles : List String
  excludeFiles : List String

/-- Writes performed inside a function folder. -/
inductive FolderWrite where
  | copyFile (src dest : String)
  | writeJsonFile (path : String) (value : Json)

/-- Modelled from the spec: `copyDependenciesToFunction` lives in `../lib/nft.js`,
which is not under `src/`; the spec describes it as "an external
node-dependency-tracing utility to copy transitive file dependencies into an
isolated folder per function".  We model it, parameterised by the tracer
`trace`, as copying each traced transitive dependency of `entry` into `outDir`. -/
def copyDependenciesToFunction (trace : String → List String) (c : CopyDepsCall) :
    List FolderWrite :=
  (trace c.entry).map fun f => FolderWrite.copyFile f (c.outDir ++ f)

/-- Arguments of `createFunctionFolder` (`CreateFunctionFolderArgs`, adapter.ts
lines 242-251); `outDirConfig` and `root` stand for `config.outDir` and
`config.root`. -/
structure FunctionFolderArgs where
  functionName : String
  entry : String
  outDirConfig : String
  root : String
  includeFiles : List String
  excludeFiles : List String
  maxDuration : Option Nat

/-- The folder `new URL('./functions/<name>.func/', config.outDir)` used by
`createFunctionFolder` (adapter.ts line 262). -/
def functionFolderOf (a : FunctionFolderArgs) : String :=
  urlJoin a.outDirConfig ("./functions/" ++ a.functionName ++ ".func/")

/-- Models `createFunctionFolder` (adapter.ts lines 253-281): it copies the
entry's dependencies into the function folder and writes a `package.json`
containing `{"type": "module"}` there.  Note the destructuring of its argument
object never binds `maxDuration`. -/
def createFunctionFolder (trace : String → List String) (a : FunctionFolderArgs) :
    List FolderWrite :=
  let functionFolder := functionFolderOf a
  copyDependenciesToFunction trace
      ⟨a.entry, functionFolder, a.includeFiles, a.excludeFiles.map (urlJoin a.root ·)⟩
    ++ [FolderWrite.writeJsonFile (urlJoin functionFolder "./package.json")
          (Json.obj [("type", Json.str "module")])]

/-- The path a folder write targets. -/
def destOf : FolderWrite → String
  | FolderWrite.copyFile _ d => d
  | FolderWrite.writeJsonFile p _ => p

/-! ### The `astro:build:ssr` hook (adapter.ts lines 149-165) -/

/-- The `VERCEL_EDGE_MIDDLEWARE_FILE` constant (adapter.ts line 18). -/
def VERCEL_EDGE_MIDDLEWARE_FILE : String := "vercel-edge-middleware"

/-- State the `astro:build:ssr` hook leaves behind: the captured entry-point map
and the accumulated `extraFilesToInclude` list. -/
structure BuildSsrResult where
  entryPoints : List (Route × String)
  extraFilesToInclude : List String

/-- Models the `astro:build:ssr` hook (adapter.ts lines 149-165), parameterised
by the bundler `generateEdgeMiddleware` (from `./middleware.js`, not under
`src/`), which receives the middleware entry point, the build temp folder and
the `vercel-edge-middleware` handler path resolved against `srcDir`. -/
def buildSsr (generateEdgeMiddleware : String → String → String → String)
    (entryPoints : List (Route × String)) (middlewareEntryPoint : Option String)
    (buildTempFolder srcDir : String) (extraFilesToInclude : List String) : BuildSsrResult :=
  match middlewareEntryPoint with
  | none => ⟨entryPoints, extraFilesToInclude⟩
  | some m =>
    ⟨entryPoints,
     extraFilesToInclude ++
       [generateEdgeMiddleware m buildTempFolder (urlJoin srcDir VERCEL_EDGE_MIDDLEWARE_FILE)]⟩

/-! ### Serverless entrypoint (`src/packages/integrations/zeabur/src/serverless/entrypoint.ts`) -/

/-- The `x-astro-locals` header name (adapter.ts line 17). -/
def ASTRO_LOCALS_HEADER : String := "x-astro-locals"

/-- A JS error value as the entrypoint's catch block reads it: its optional
`status` and `reason` fields (`err.status || 400`, `err.reason || ...`). -/
structure JsError where
  status : Option Nat
  reason : Option String

/-- The web `Request` as the handler uses it: only the `x-astro-locals` header
is consulted (`headers.has` is `isSome`, `headers.get` the value). -/
structure WebRequest where
  localsHeader : Option String

/-- The handler's collaborators, each allowed to throw (modelled as `Except`):
`getRequest` from `request-transform.js`, `app.match`, `JSON.parse`,
`app.render` and `setResponse`. -/
structure HandlerEnv where
  getRequest : Except JsError WebRequest
  matchRoute : WebRequest → Option String
  parseLocals : String → Except String Json
  render : WebRequest → Option String → Json → Except String String
  setResponse : String → Except String Unit

/-- What the handler does with an incoming request: answer early with an error
response, complete normally, or let an exception propagate to the caller. -/
inductive HandlerOutcome where
  | errorResponse (statusCode : Nat) (body : String)
  | completed
  | thrown (err : String)

/-- Is the outcome a propagated exception? -/
def isThrown : HandlerOutcome → Bool
  | HandlerOutcome.thrown _ => true
  | _ => false

/-- The locals computation of the handler (entrypoint.ts lines 31-37):
`locals = {}`, overwritten by `JSON.parse` of the `x-astro-locals` header when
that header is present and truthy. -/
def localsOf (env : HandlerEnv) (req : WebRequest) : Except String Json :=
  match req.localsHeader with
  | some s => if s = "" then Except.ok (Json.obj []) else env.parseLocals s
  | none => Except.ok (Json.obj [])

/-- Models `handler` (entrypoint.ts lines 20-39): `getRequest` failures are
caught and answered with `err.status || 400` and `err.reason || 'Invalid
request body'`; every later failure (locals parsing, rendering, writing the
response) propagates. -/
def handler (env : HandlerEnv) : HandlerOutcome :=
  match env.getRequest with
  | Except.error err =>
    HandlerOutcome.errorResponse (err.status.getD 400) (err.reason.getD "Invalid request body")
  | Except.ok req =>
    match localsOf env req with
    | Except.error e => HandlerOutcome.thrown e
    | Except.ok locals =>
      match env.render req (env.matchRoute req) locals with
      | Except.error e => HandlerOutcome.thrown e
      | Except.ok response =>
        match env.setResponse response with
        | Except.error e => HandlerOutcome.thrown e
        | Except.ok _ => HandlerOutcome.completed

/-! ### Comment action (`src/packages/astro/e2e/fixtures/actions-blog/src/actions/index.ts`) -/

/-- A blog content-collection entry as the action consults it (`b.id`). -/
structure BlogEntry where
  id : String
deriving DecidableEq

/-- A row of the `Comment` table, with the fields the action inserts
(`{ postId, body, author }`). -/
structure CommentRow where
  postId : String
  body : String
  author : String
deriving DecidableEq

/-- Failures of the comment action: input validation rejected the form data
(the handler never ran), or the handler threw an `ActionError`. -/
inductive ActionFailure where
  | invalidInput
  | actionError (code message : String)
deriving DecidableEq

/-- Models `(await getCollection('blog')).find(b => b.id === postId)`. -/
def findEntry : List BlogEntry → String → Option BlogEntry
  | [], _ => none
  | b :: rest, postId => if b.id = postId then some b else findEntry rest postId

/-- Models the `comment` action (actions/index.ts lines 25-51): the input schema
requires `body` to be a string of length at least 10 (`z.string().min(10)`);
the handler throws `ActionError NOT_FOUND 'Post not found'` when no blog entry
has id `postId`, and otherwise inserts `{ postId, body, author }` into the
`Comment` table and returns the inserted row. -/
def commentAction (blog : List BlogEntry) (commentTable : List CommentRow)
    (postId author body : String) : Except ActionFailure (CommentRow × List CommentRow) :=
  if body.length < 10 then Except.error ActionFailure.invalidInput
  else
    match findEntry blog postId with
    | none => Except.error (ActionFailure.actionError "NOT_FOUND" "Post not found")
    | some _ =>
      Except.ok (⟨postId, body, author⟩, commentTable ++ [⟨postId, body, author⟩])

/-! ### Static adapter (`src/packages/integrations/zeabur/src/static/adapter.ts`) -/

/-- Models the `astro:build:start` hook of the static adapter (line 53-55).
Modelled from the spec: `emptyDir` and `getOutput` live in `../lib/fs.js`, which
is not under `src/`; per the spec the adapter is "a static-file emptier/writer",
so the hook is modelled as the effect of emptying the output directory
`getOutput(config.root)`, here abstracted as `outputDir`. -/
def vercelStaticBuildStart (outputDir : String) : Effect :=
  Effect.emptyDir outputDir

/-- Models the `astro:build:done` hook of the static adapter (lines 56-61): it
writes `config.json` inside the same output directory `getOutput(config.root)`,
with the constant routes/containerized manifest. -/
def vercelStaticBuildDone (outputDir : String) : Effect :=
  Effect.writeJson (urlJoin outputDir "./config.json") zeaburManifest

/-! ### Vue virtual-module plugin (`src/unnamed/part_001`, `virtualAppEntrypoint`) -/

/-- The virtual module id (part_001 line 10). -/
def VIRTUAL_MODULE_ID : String := "virtual:@astrojs/vue/app"

/-- The resolved id: a NUL byte prepended to the virtual id (part_001 line 11). -/
def RESOLVED_VIRTUAL_MODULE_ID : String := "\x00virtual:@astrojs/vue/app"

/-- Models the plugin's `resolveId` (part_001 lines 53-57). -/
def vueResolveId (id : String) : Option String :=
  if id = VIRTUAL_MODULE_ID then some RESOLVED_VIRTUAL_MODULE_ID else none

/-- Models `JSON.stringify` on a string for the characters the generated module
can contain: quotes, backslashes and common control characters are escaped. -/
def jsonEscChar (c : Char) : List Char :=
  if c = '"' then ['\\', '"']
  else if c = '\\' then ['\\', '\\']
  else if c = '\n' then ['\\', 'n']
  else if c = '\t' then ['\\', 't']
  else if c = '\r' then ['\\', 'r']
  else [c]

/-- Models `JSON.stringify(appEntrypoint)`. -/
def jsonStringifyStr (s : String) : String :=
  "\"" ++ String.mk (s.data.map jsonEscChar).flatten ++ "\""

/-- The `console.warn` statement interpolated into the module in dev mode
(part_001 lines 70-72). -/
def vueWarnStatement (appEntrypoint : String) : String :=
  "console.warn(\"[@astrojs/vue] appEntrypoint \x60\" + " ++ jsonStringifyStr appEntrypoint ++
    " + \"\x60 does not export a default function. Check out https://docs.astro.build/en/guides/integrations-guide/vue/#appentrypoint.\");"

/-- The module source generated when an `appEntrypoint` is configured
(part_001 lines 61-76): it imports the entrypoint as `mod` and defines an async
`setup` that awaits `mod.default(app)` when a default export exists (warning in
dev mode otherwise). -/
def vueAppModuleSource (isBuild : Bool) (appEntrypoint : String) : String :=
  "import * as mod from " ++ jsonStringifyStr appEntrypoint ++
    ";\n\nexport const setup = async (app) => \x7b\n\tif (\x27default\x27 in mod) \x7b\n\t\tawait mod.default(app);\n\t\x7d else \x7b\n\t\t" ++
    (if !isBuild then vueWarnStatement appEntrypoint else "") ++ "\n\t\x7d\n\x7d"

/-- The no-op module returned when no `appEntrypoint` is configured
(part_001 line 78). -/
def vueNoopModuleSource : String := "export const setup = () => \x7b\x7d;"

/-- Models the plugin's `load` (part_001 lines 58-80). -/
def vueLoad (isBuild : Bool) (appEntrypoint : Option String) (id : String) : Option String :=
  if id = RESOLVED_VIRTUAL_MODULE_ID then
    some (match appEntrypoint with
          | some ep => vueAppModuleSource isBuild ep
          | none => vueNoopModuleSource)
  else none

/-! ### Helper lemmas on the string primitives -/

theorem charsBeginWith_nil_true {pat : List Char} (h : charsBeginWith pat [] = true) :
    pat = [] := by
  cases pat with
  | nil => rfl
  | cons p ps => simp [charsBeginWith] at h

theorem replaceFirstChars_pos (pat rep s : List Char) (h : charsBeginWith pat s = true) :
    replaceFirstChars pat rep s = rep ++ s.drop pat.length := by
  cases s with
  | nil =>
    have hp := charsBeginWith_nil_true h
    subst hp
    simp [replaceFirstChars, charsBeginWith]
  | cons c cs =>
    simp [replaceFirstChars, h]

theorem jsReplaceFirst_of_begin (s pat : String) (h : jsStartsWith s pat = true) :
    jsReplaceFirst s pat "" = jsDrop s pat.data.length := by
  unfold jsReplaceFirst jsDrop
  have := replaceFirstChars_pos pat.data "".data s.data h
  simpa using congrArg String.mk this

theorem charsBeginWith_self_append (a t : List Char) :
    charsBeginWith a (a ++ t) = true := by
  induction a with
  | nil => simp [charsBeginWith]
  | cons x xs ih => simp [charsBeginWith, ih]

theorem jsStartsWith_append (a t : String) : jsStartsWith (a ++ t) a = true := by
  unfold jsStartsWith
  rw [String.data_append]
  exact charsBeginWith_self_append a.data t.data

theorem writeJsonEffects_append (a b : List Effect) :
    writeJsonEffects (a ++ b) = writeJsonEffects a ++ writeJsonEffects b := by
  induction a with
  | nil => rfl
  | cons e rest ih => cases e <;> simp [writeJsonEffects, ih]

theorem writeJsonEffects_map (l : List (Route × String)) :
    writeJsonEffects (l.map fun p => Effect.createFunctionFolder (funcNameFor p.1 p.2) p.2) = [] := by
  induction l with
  | nil => rfl
  | cons q qs ih => simpa [writeJsonEffects] using ih

theorem writeJsonEffects_funcEffects (i : BuildDoneInput) :
    writeJsonEffects (funcEffects i) = [] := by
  unfold funcEffects
  cases i.entryPoints with
  | nil => rfl
  | cons p rest => exact writeJsonEffects_map (p :: rest)

theorem strAssoc (a b c : String) : (a ++ b) ++ c = a ++ (b ++ c) := by
  cases a; cases b; cases c
  exact congrArg String.mk (List.append_assoc _ _ _)

/-! ## Claim C1 -/

/-- A concrete route for claim C1. -/
def rC1 : Route := ⟨"src/pages/foo.astro", "^/foo$"⟩

/-- A concrete build input for claim C1: one route, resolved to one entry file. -/
def iC1 : BuildDoneInput :=
  ⟨[(rC1, "file:///tmp/dist/entry.foo.mjs")], "index.mjs", "file:///tmp/dist/", "file:///out/"⟩

/-- Claim C1 counterexample: on a build with one route of pattern source
`^/foo$` whose chosen function name is `foo.astro`, the `astro:build:done` hook
writes `config.json` with the constant manifest, which contains no entry
mapping `^/foo$` to `foo.astro` — even though `routeDefinitions` records
exactly that pair.  So the manifest does not have one entry per route. -/
theorem C1_counterexample :
    buildDone "v18.17.0" iC1 =
      Except.ok
        ([Effect.createFunctionFolder "foo.astro" "file:///tmp/dist/entry.foo.mjs",
          Effect.writeJson "file:///out/config.json" zeaburManifest,
          Effect.removeDir "file:///tmp/dist/"],
         [("^/foo$", "foo.astro")])
    ∧ ("^/foo$", "foo.astro") ∉ manifestEntries zeaburManifest
    ∧ manifestEntries zeaburManifest = [(".*", "/__astro")] :=
  ⟨rfl, by decide, by decide⟩

/-- Claim C1 (amended): at the end of a serverless build, the hook writes a JSON
manifest `config.json` in the output directory, but its content is always the
constant `{"routes":[{"src":".*","dest":"/__astro"}],"containerized":false}`,
regardless of the routes processed; the per-route definitions the hook computes
are never written. -/
theorem C1_manifest_is_constant (pv : String) (i : BuildDoneInput)
    (effs : List Effect) (defs : List (String × String))
    (h : buildDone pv i = Except.ok (effs, defs)) :
    writeJsonEffects effs = [(urlJoin i.outDir "./config.json", zeaburManifest)]
    ∧ manifestEntries zeaburManifest = [(".*", "/__astro")] := by
  constructor
  · unfold buildDone at h
    cases hv : validateRuntime pv with
    | error e => rw [hv] at h; exact Except.noConfusion h
    | ok b =>
      rw [hv] at h
      injection h with h1
      have he : funcEffects i ++ tailEffects i = effs := congrArg Prod.fst h1
      rw [← he, writeJsonEffects_append, writeJsonEffects_funcEffects]
      simp [tailEffects, writeJsonEffects]
  · decide

/-- Witness for C1_manifest_is_constant at the concrete build `iC1`. -/
theorem C1_manifest_is_constant_witness :
    writeJsonEffects
        [Effect.createFunctionFolder "foo.astro" "file:///tmp/dist/entry.foo.mjs",
         Effect.writeJson "file:///out/config.json" zeaburManifest,
         Effect.removeDir "file:///tmp/dist/"] =
      [(urlJoin iC1.outDir "./config.json", zeaburManifest)]
    ∧ manifestEntries zeaburManifest = [(".*", "/__astro")] :=
  C1_manifest_is_constant "v18.17.0" iC1 _ _ rfl

/-! ## Claim C2 -/

/-- A route whose component does not start with `src/pages/`, for claim C2. -/
def rC2 : Route := ⟨"pages/x.astro", "^/x$"⟩

/-- An entry file whose basename contains `entry.` in the middle, for claim C2. -/
def entryC2 : String := "file:///d/xentry.y.mjs"

/-- A concrete build input for claim C2. -/
def iC2 : BuildDoneInput := ⟨[(rC2, entryC2)], "index.mjs", "file:///tmp/dist/", "file:///out/"⟩

/-- Claim C2's description of the fallback function name, following the spec
claim's words: the entry file's basename with the `entry.` PREFIX removed (only
when it is a prefix) and the `.mjs` suffix removed. -/
def specFallbackFuncName (entryFile : String) : String :=
  let b := jsBasename entryFile
  let b2 := if jsStartsWith b "entry." then jsDrop b 6 else b
  if jsEndsWith b2 ".mjs" then jsDropEnd b2 4 else b2

/-- Claim C2 counterexample: for an entry file with basename `xentry.y.mjs`, the
code removes the FIRST OCCURRENCE of `entry.` (JS `String.prototype.replace`
with a string pattern), producing function name `xy`, while the claim's
"basename with the 'entry.' prefix removed" would leave `xentry.y`. -/
theorem C2_counterexample :
    funcNameFor rC2 entryC2 = "xy"
    ∧ buildDone "v18.17.0" iC2 =
        Except.ok ([Effect.createFunctionFolder "xy" entryC2] ++ tailEffects iC2, [("^/x$", "xy")])
    ∧ specFallbackFuncName entryC2 = "xentry.y"
    ∧ ("xy" : String) ≠ "xentry.y" :=
  ⟨rfl, rfl, rfl, by decide⟩

/-- Claim C2 (amended): for every build whose resolved route-to-entry-file map
is non-empty, the hook creates one function per map entry, naming it by
stripping the `src/pages/` prefix from the component when the component starts
with `src/pages/`, and otherwise by removing the first occurrence of `entry.`
anywhere in the entry file's basename (not only as a prefix) and a trailing
`.mjs` suffix; for an empty map it falls back to a single `__astro` function
registered (in the hook's route-definition list) with pattern `/.*`. -/
theorem C2_function_naming (pv : String) (i : BuildDoneInput)
    (effs : List Effect) (defs : List (String × String))
    (h : buildDone pv i = Except.ok (effs, defs)) :
    (i.entryPoints ≠ [] →
      effs = (i.entryPoints.map fun p => Effect.createFunctionFolder (funcNameFor p.1 p.2) p.2)
               ++ tailEffects i
      ∧ defs = i.entryPoints.map fun p => (p.1.patternSource, funcNameFor p.1 p.2))
    ∧ (i.entryPoints = [] →
      effs = [Effect.createFunctionFolder "__astro" (urlJoin i.buildTempFolder i.serverEntry)]
               ++ tailEffects i
      ∧ defs = [("/.*", "__astro")])
    ∧ (∀ r ef, jsStartsWith r.component "src/pages/" = true →
        funcNameFor r ef = jsDrop r.component 10)
    ∧ (∀ r ef, jsStartsWith r.component "src/pages/" = false →
        funcNameFor r ef = getFallbackFuncName ef) := by
  have hmain : effs = funcEffects i ++ tailEffects i ∧ defs = routeDefinitions i := by
    unfold buildDone at h
    cases hv : validateRuntime pv with
    | error e => rw [hv] at h; exact Except.noConfusion h
    | ok b =>
      rw [hv] at h
      injection h with h1
      exact ⟨(congrArg Prod.fst h1).symm, (congrArg Prod.snd h1).symm⟩
  obtain ⟨he, hd⟩ := hmain
  refine ⟨?_, ?_, ?_, ?_⟩
  · intro hne
    cases hep : i.entryPoints with
    | nil => exact absurd hep hne
    | cons p rest =>
      subst he; subst hd
      constructor
      · unfold funcEffects; rw [hep]
      · unfold routeDefinitions; rw [hep]
  · intro hnil
    subst he; subst hd
    constructor
    · unfold funcEffects; rw [hnil]
    · unfold routeDefinitions; rw [hnil]
  · intro r ef hr
    have h10 : ("src/pages/" : String).data.length = 10 := by decide
    unfold funcNameFor
    rw [hr]
    simp only [if_true]
    unfold getRouteFuncName
    rw [jsReplaceFirst_of_begin r.component "src/pages/" hr, h10]
  · intro r ef hr
    unfold funcNameFor
    rw [hr]
    simp

/-- Witness for C2_function_naming at a concrete build with one `src/pages/`
route and the empty-map fallback checked on a second input. -/
theorem C2_function_naming_witness :
    ([Effect.createFunctionFolder "foo.astro" "file:///tmp/dist/entry.foo.mjs",
      Effect.writeJson "file:///out/config.json" zeaburManifest,
      Effect.removeDir "file:///tmp/dist/"] =
        (iC1.entryPoints.map fun p => Effect.createFunctionFolder (funcNameFor p.1 p.2) p.2)
          ++ tailEffects iC1
      ∧ [("^/foo$", "foo.astro")] =
          iC1.entryPoints.map fun p => (p.1.patternSource, funcNameFor p.1 p.2))
    ∧ funcNameFor rC1 "file:///tmp/dist/entry.foo.mjs" = jsDrop rC1.component 10 :=
  ⟨(C2_function_naming "v18.17.0" iC1 _ _ rfl).1 (by decide),
   (C2_function_naming "v18.17.0" iC1 _ _ rfl).2.2.1 rC1 "file:///tmp/dist/entry.foo.mjs" rfl⟩

/-! ## Claim C3 -/

/-- A concrete handler environment whose `getRequest` throws, for claim C3. -/
def envC3 : HandlerEnv :=
  ⟨Except.error ⟨some 500, some "boom"⟩,
   fun _ => none,
   fun _ => Except.ok (Json.obj []),
   fun _ _ _ => Except.ok "rendered",
   fun _ => Except.ok ()⟩

/-- Claim C3 counterexample: when `getRequest` throws, the handler does NOT
propagate the error — it catches it and answers with `err.status || 400` and
`err.reason || 'Invalid request body'` (entrypoint.ts lines 23-28).  So the
handler has failure-recovery logic beyond propagating thrown errors. -/
theorem C3_counterexample :
    handler envC3 = HandlerOutcome.errorResponse 500 "boom"
    ∧ isThrown (handler envC3) = false :=
  ⟨rfl, rfl⟩

/-- Claim C3 (amended): errors thrown while parsing the incoming request
(`getRequest`) are caught and answered with status `err.status || 400` and body
`err.reason || 'Invalid request body'`; every other error thrown during
handling (locals JSON parsing, rendering, writing the response) propagates to
the caller uncaught. -/
theorem C3_error_propagation (env : HandlerEnv) :
    (∀ err, env.getRequest = Except.error err →
      handler env =
        HandlerOutcome.errorResponse (err.status.getD 400) (err.reason.getD "Invalid request body"))
    ∧ (∀ req e, env.getRequest = Except.ok req → localsOf env req = Except.error e →
        handler env = HandlerOutcome.thrown e)
    ∧ (∀ req locals e, env.getRequest = Except.ok req → localsOf env req = Except.ok locals →
        env.render req (env.matchRoute req) locals = Except.error e →
        handler env = HandlerOutcome.thrown e)
    ∧ (∀ req locals resp e, env.getRequest = Except.ok req → localsOf env req = Except.ok locals →
        env.render req (env.matchRoute req) locals = Except.ok resp →
        env.setResponse resp = Except.error e →
        handler env = HandlerOutcome.thrown e) := by
  refine ⟨?_, ?_, ?_, ?_⟩ <;> intros <;> simp [handler, *]

/-- A handler environment whose locals header fails to parse, for the C3 witness. -/
def envC3b : HandlerEnv :=
  ⟨Except.ok ⟨some "not json"⟩,
   fun _ => none,
   fun _ => Except.error "SyntaxError",
   fun _ _ _ => Except.ok "rendered",
   fun _ => Except.ok ()⟩

/-- A handler environment whose `render` throws, for the C3 witness. -/
def envC3c : HandlerEnv :=
  ⟨Except.ok ⟨none⟩,
   fun _ => none,
   fun _ => Except.ok (Json.obj []),
   fun _ _ _ => Except.error "render boom",
   fun _ => Except.ok ()⟩

/-- A handler environment whose `setResponse` throws, for the C3 witness. -/
def envC3d : HandlerEnv :=
  ⟨Except.ok ⟨none⟩,
   fun _ => none,
   fun _ => Except.ok (Json.obj []),
   fun _ _ _ => Except.ok "rendered",
   fun _ => Except.error "write boom"⟩

/-- Witness for C3_error_propagation at concrete environments exercising each
failure point. -/
theorem C3_error_propagation_witness :
    handler envC3 = HandlerOutcome.errorResponse 500 "boom"
    ∧ handler envC3b = HandlerOutcome.thrown "SyntaxError"
    ∧ handler envC3c = HandlerOutcome.thrown "render boom"
    ∧ handler envC3d = HandlerOutcome.thrown "write boom" :=
  ⟨(C3_error_propagation envC3).1 ⟨some 500, some "boom"⟩ rfl,
   (C3_error_propagation envC3b).2.1 ⟨some "not json"⟩ "SyntaxError" rfl rfl,
   (C3_error_propagation envC3c).2.2.1 ⟨none⟩ (Json.obj []) "render boom" rfl rfl rfl,
   (C3_error_propagation envC3d).2.2.2 ⟨none⟩ (Json.obj []) "rendered" "write boom" rfl rfl rfl rfl⟩

/-! ## Claim C4 -/

/-- Claim C4: for every process version string whose major component is not a
key of `SUPPORTED_NODE_VERSIONS`, the lookup yields `undefined` and reading
`support.status` fails with a `TypeError` before the `support === undefined`
check, so `validateRuntime` throws instead of warning and its "not supported"
warning branch is unreachable; when the major component is a supported key,
`validateRuntime` returns normally. -/
theorem C4_validateRuntime_safety (processVersion : String) :
    (SUPPORTED_NODE_VERSIONS (nodeMajorOf processVersion) = none →
      validateRuntime processVersion = Except.error undefinedStatusMessage)
    ∧ validateRuntime processVersion ≠ Except.ok RuntimeBranch.notSupportedWarned
    ∧ (∀ s, SUPPORTED_NODE_VERSIONS (nodeMajorOf processVersion) = some s →
        ∃ b, validateRuntime processVersion = Except.ok b) := by
  refine ⟨?_, ?_, ?_⟩
  · intro h
    simp [validateRuntime, h]
  · cases hl : SUPPORTED_NODE_VERSIONS (nodeMajorOf processVersion) with
    | none => simp [validateRuntime, hl]
    | some s =>
      simp only [validateRuntime, hl]
      split_ifs with h1 h2 h3 <;> simp_all
  · intro s hl
    simp only [validateRuntime, hl]
    split_ifs <;> exact ⟨_, rfl⟩

/-- Witness for C4_validateRuntime_safety: Node 21 is unsupported and makes the
function throw; Node 18 is supported and returns normally. -/
theorem C4_validateRuntime_safety_witness :
    validateRuntime "v21.0.0" = Except.error undefinedStatusMessage
    ∧ validateRuntime "v18.17.1" ≠ Except.ok RuntimeBranch.notSupportedWarned
    ∧ (∃ b, validateRuntime "v18.17.1" = Except.ok b) :=
  ⟨(C4_validateRuntime_safety "v21.0.0").1 rfl,
   (C4_validateRuntime_safety "v18.17.1").2.1,
   (C4_validateRuntime_safety "v18.17.1").2.2 ⟨"current", none⟩ rfl⟩

/-! ## Claim C5 -/

/-- Claim C5: the comment action accepts its input only when `body` has at
least 10 characters (shorter bodies fail validation and the handler does not
run — the result does not depend on the blog collection or the table); it
throws `ActionError NOT_FOUND 'Post not found'` for every `postId` matching no
blog entry; and for valid input with a matching entry it inserts
`(postId, body, author)` into the `Comment` table and returns the inserted row. -/
theorem C5_comment_action (blog : List BlogEntry) (table : List CommentRow)
    (postId author body : String) :
    (body.length < 10 →
      commentAction blog table postId author body = Except.error ActionFailure.invalidInput
      ∧ ∀ blog2 table2,
          commentAction blog table postId author body =
            commentAction blog2 table2 postId author body)
    ∧ (10 ≤ body.length → findEntry blog postId = none →
        commentAction blog table postId author body =
          Except.error (ActionFailure.actionError "NOT_FOUND" "Post not found"))
    ∧ (10 ≤ body.length → ∀ e, findEntry blog postId = some e →
        commentAction blog table postId author body =
          Except.ok (⟨postId, body, author⟩, table ++ [⟨postId, body, author⟩])) := by
  refine ⟨fun h => ⟨?_, ?_⟩, fun h hf => ?_, fun h e hf => ?_⟩
  · simp [commentAction, h]
  · intro blog2 table2
    simp [commentAction, h]
  · simp [commentAction, Nat.not_lt.mpr h, hf]
  · simp [commentAction, Nat.not_lt.mpr h, hf]

/-- Witness for C5_comment_action: a 5-character body is rejected, an unknown
post id raises `NOT_FOUND`, and a valid comment on post `p1` is inserted and
returned. -/
theorem C5_comment_action_witness :
    commentAction [⟨"p1"⟩] [] "p1" "ada" "short" = Except.error ActionFailure.invalidInput
    ∧ commentAction [⟨"p1"⟩] [] "p2" "ada" "0123456789" =
        Except.error (ActionFailure.actionError "NOT_FOUND" "Post not found")
    ∧ commentAction [⟨"p1"⟩] [] "p1" "ada" "0123456789" =
        Except.ok (⟨"p1", "0123456789", "ada"⟩, [⟨"p1", "0123456789", "ada"⟩]) :=
  ⟨((C5_comment_action [⟨"p1"⟩] [] "p1" "ada" "short").1 (by decide)).1,
   (C5_comment_action [⟨"p1"⟩] [] "p2" "ada" "0123456789").2.1 (by decide) rfl,
   (C5_comment_action [⟨"p1"⟩] [] "p1" "ada" "0123456789").2.2 (by decide) ⟨"p1"⟩ rfl⟩

/-! ## Claim C6 -/

/-- Claim C6: for every function name passed to `createFunctionFolder`, the
entry file's transitive dependencies (as produced by the dependency tracer) are
copied into the isolated folder `functions/<name>.func/` under the configured
output directory, and a `package.json` containing `{"type": "module"}` is
written inside that same folder. -/
theorem C6_function_folder_layout (trace : String → List String) (a : FunctionFolderArgs) :
    (∀ w, w ∈ createFunctionFolder trace a →
      jsStartsWith (destOf w) (functionFolderOf a) = true)
    ∧ FolderWrite.writeJsonFile (urlJoin (functionFolderOf a) "./package.json")
        (Json.obj [("type", Json.str "module")]) ∈ createFunctionFolder trace a
    ∧ functionFolderOf a = urlJoin a.outDirConfig ("./functions/" ++ a.functionName ++ ".func/") := by
  refine ⟨?_, ?_, rfl⟩
  · intro w hw
    simp only [createFunctionFolder, copyDependenciesToFunction, List.mem_append,
      List.mem_map, List.mem_singleton] at hw
    rcases hw with ⟨f, _, rfl⟩ | rfl
    · exact jsStartsWith_append (functionFolderOf a) f
    · exact jsStartsWith_append (functionFolderOf a) "package.json"
  · simp [createFunctionFolder]

/-- A concrete tracer for the C6 witness. -/
def traceC6 : String → List String := fun _ => ["node_modules/astro/index.js"]

/-- Concrete `createFunctionFolder` arguments for the C6 witness. -/
def aC6 : FunctionFolderArgs :=
  ⟨"fn", "file:///proj/dist/index.mjs", "file:///out/", "file:///proj/", [], [], none⟩

/-- Witness for C6_function_folder_layout at a concrete call, instantiating the
membership hypothesis with the `package.json` write itself. -/
theorem C6_function_folder_layout_witness :
    jsStartsWith
        (destOf (FolderWrite.writeJsonFile (urlJoin (functionFolderOf aC6) "./package.json")
          (Json.obj [("type", Json.str "module")])))
        (functionFolderOf aC6) = true :=
  (C6_function_folder_layout traceC6 aC6).1 _ (C6_function_folder_layout traceC6 aC6).2.1

/-! ## Claim C7 -/

/-- Claim C7: during `astro:build:ssr`, a bundled edge-middleware file is
appended to the extra files to include if and only if a middleware entry point
is present; with no entry point the extra-files list is unchanged and nothing
is bundled, and the hook stores the entry-point map either way. -/
theorem C7_edge_middleware (generate : String → String → String → String)
    (eps : List (Route × String)) (btf srcDir : String) (extra : List String) :
    (buildSsr generate eps none btf srcDir extra).extraFilesToInclude = extra
    ∧ (∀ m, (buildSsr generate eps (some m) btf srcDir extra).extraFilesToInclude =
        extra ++ [generate m btf (urlJoin srcDir VERCEL_EDGE_MIDDLEWARE_FILE)])
    ∧ (∀ m, (buildSsr generate eps m btf srcDir extra).entryPoints = eps) := by
  refine ⟨rfl, fun m => rfl, fun m => ?_⟩
  cases m <;> rfl

/-! ## Claim C8 -/

/-- Claim C8: the writes performed by `createFunctionFolder` are independent of
`maxDuration`: two calls whose arguments differ only in `maxDuration` produce
identical folder contents (the field is accepted but never used). -/
theorem C8_maxDuration_independent (trace : String → List String)
    (a : FunctionFolderArgs) (d1 d2 : Option Nat) :
    createFunctionFolder trace { a with maxDuration := d1 } =
      createFunctionFolder trace { a with maxDuration := d2 } := by
  cases a
  rfl

/-! ## Claim C9 -/

/-- The `containerized` field of a manifest object. -/
def manifestContainerized (j : Json) : Option Json :=
  match j with
  | Json.obj fields => jlookup fields "containerized"
  | _ => none

/-- Claim C9: the static adapter empties the output directory at
`astro:build:start` and, at `astro:build:done`, writes a `config.json` in that
same directory whose content is exactly
`{"routes":[{"src":".*","dest":"/__astro"}],"containerized":false}`. -/
theorem C9_static_adapter (outputDir : String) :
    vercelStaticBuildStart outputDir = Effect.emptyDir outputDir
    ∧ vercelStaticBuildDone outputDir =
        Effect.writeJson (urlJoin outputDir "./config.json") zeaburManifest
    ∧ zeaburManifest =
        Json.obj
          [("routes",
            Json.arr [Json.obj [("src", Json.str ".*"), ("dest", Json.str "/__astro")]]),
           ("containerized", Json.bool false)]
    ∧ manifestEntries zeaburManifest = [(".*", "/__astro")]
    ∧ manifestContainerized zeaburManifest = some (Json.bool false) :=
  ⟨rfl, rfl, rfl, by decide, rfl⟩

/-! ## Claim C10 -/

/-- Claim C10: the Vue integration's virtual-module plugin resolves exactly the
id `virtual:@astrojs/vue/app` to its resolved (NUL-prefixed) form, and loading
the resolved id always yields a module exporting `setup`: with no
`appEntrypoint` the module is the no-op `export const setup = () => {};`, and
with one configured the module imports it (as `mod`) and `setup` awaits
`mod.default(app)` when a default export exists. -/
theorem C10_vue_virtual_module (isBuild : Bool) (ep : Option String) (id : String) :
    vueResolveId VIRTUAL_MODULE_ID = some RESOLVED_VIRTUAL_MODULE_ID
    ∧ (id ≠ VIRTUAL_MODULE_ID → vueResolveId id = none)
    ∧ vueLoad isBuild ep RESOLVED_VIRTUAL_MODULE_ID =
        some (match ep with
              | some e => vueAppModuleSource isBuild e
              | none => vueNoopModuleSource)
    ∧ vueLoad isBuild none RESOLVED_VIRTUAL_MODULE_ID =
        some "export const setup = () => \x7b\x7d;"
    ∧ (id ≠ RESOLVED_VIRTUAL_MODULE_ID → vueLoad isBuild ep id = none)
    ∧ (∀ e, ∃ post, vueAppModuleSource isBuild e =
        ("import * as mod from " ++ jsonStringifyStr e ++ ";") ++ post)
    ∧ (∀ e, ∃ pre post, vueAppModuleSource isBuild e =
        (pre ++ "if (\x27default\x27 in mod) \x7b\n\t\tawait mod.default(app);\n\t\x7d") ++ post) := by
  refine ⟨rfl, ?_, ?_, rfl, ?_, ?_, ?_⟩
  · intro h
    simp [vueResolveId, h]
  · cases ep <;> rfl
  · intro h
    simp [vueLoad, h]
  · intro e
    refine ⟨"\n\nexport const setup = async (app) => \x7b\n\tif (\x27default\x27 in mod) \x7b\n\t\tawait mod.default(app);\n\t\x7d else \x7b\n\t\t"
        ++ ((if !isBuild then vueWarnStatement e else "") ++ "\n\t\x7d\n\x7d"), ?_⟩
    have hs : (";\n\nexport const setup = async (app) => \x7b\n\tif (\x27default\x27 in mod) \x7b\n\t\tawait mod.default(app);\n\t\x7d else \x7b\n\t\t" : String)
        = ";" ++ "\n\nexport const setup = async (app) => \x7b\n\tif (\x27default\x27 in mod) \x7b\n\t\tawait mod.default(app);\n\t\x7d else \x7b\n\t\t" := by
      decide
    simp only [vueAppModuleSource, hs, strAssoc]
  · intro e
    refine ⟨("import * as mod from " ++ jsonStringifyStr e) ++ ";\n\nexport const setup = async (app) => \x7b\n\t",
            " else \x7b\n\t\t" ++ ((if !isBuild then vueWarnStatement e else "") ++ "\n\t\x7d\n\x7d"), ?_⟩
    have hs2 : (";\n\nexport const setup = async (app) => \x7b\n\tif (\x27default\x27 in mod) \x7b\n\t\tawait mod.default(app);\n\t\x7d else \x7b\n\t\t" : String)
        = (";\n\nexport const setup = async (app) => \x7b\n\t"
            ++ "if (\x27default\x27 in mod) \x7b\n\t\tawait mod.default(app);\n\t\x7d")
            ++ " else \x7b\n\t\t" := by
      decide
    simp only [vueAppModuleSource, hs2, strAssoc]

/-- Witness for C10_vue_virtual_module: a foreign id resolves and loads to
nothing, and the generated module for a concrete entrypoint starts with
the importing of that entrypoint. -/
theorem C10_vue_virtual_module_witness :
    vueResolveId "other" = none
    ∧ vueLoad false (some "/src/app.ts") "other" = none
    ∧ (∃ post, vueAppModuleSource false "/src/app.ts" =
        ("import * as mod from " ++ jsonStringifyStr "/src/app.ts" ++ ";") ++ post) :=
  ⟨(C10_vue_virtual_module false none "other").2.1 (by decide),
   (C10_vue_virtual_module false (some "/src/app.ts") "other").2.2.2.2.1 (by decide),
   (C10_vue_virtual_module false (some "/src/app.ts") "other").2.2.2.2.2.1 "/src/app.ts"⟩
